import Mathlib

/-!
# Verification of the evaluation engine (metric derivation, confidence
# estimation, benchmark scoring, recommendation logic)

Shallow embedding of the evaluation core of the dashboard:
  - `confidence` module (Wilson score / CLT intervals, `getMetricCI`),
  - `metrics` module (`computeMetrics` and the action-extraction helpers),
  - `benchmarks` module (static benchmark table, `getCpaTarget`),
  - `recommendations` module (`evaluateKpis`, `isBenchmarkPassing`,
    `getRecommendation`).

Numbers are modelled as real numbers; the numeric-string
parsing (`parseFloat` / `toNum`) is treated as the boundary where raw
feed values become numbers, so raw snapshot fields and action values
carry the already-parsed number.
-/

open Classical

noncomputable section

/-- Qualitative confidence bucket attached to every interval. -/
inductive ConfidenceLevel
  | none
  | low
  | medium
  | high
deriving DecidableEq

/-- Statistical interval for one metric: lower/upper/center in the units of the metric plus a qualitative confidence level. -/
structure ConfidenceInterval where
  lower : ℝ
  upper : ℝ
  center : ℝ
  confidence : ConfidenceLevel

/-- Confidence bucket for proportion metrics: fewer than 100 trials or a zero
center yields "none"; otherwise bucketed by relative CI width. -/
def getProportionConfidence (trials lower upper center : ℝ) : ConfidenceLevel :=
  if trials < 100 then ConfidenceLevel.none
  else if center = 0 then ConfidenceLevel.none
  else
    let relativeWidth := (upper - lower) / center
    if relativeWidth > 1.0 then ConfidenceLevel.low
    else if relativeWidth > 0.5 then ConfidenceLevel.medium
    else ConfidenceLevel.high

/-- Confidence bucket for monetary/ratio metrics, by raw count. -/
def getMonetaryConfidence (count : ℝ) : ConfidenceLevel :=
  if count < 10 then ConfidenceLevel.none
  else if count < 30 then ConfidenceLevel.low
  else if count < 100 then ConfidenceLevel.medium
  else ConfidenceLevel.high

/-- Wilson score interval for proportions; the `z` parameter of the source
defaults to 1.96 at every call site, which callers here pass explicitly. -/
def wilsonScoreInterval (successes trials z : ℝ) : ConfidenceInterval :=
  if trials = 0 then
    { lower := 0, upper := 0, center := 0, confidence := ConfidenceLevel.none }
  else
    let p := successes / trials
    let z2 := z * z
    let denominator := 1 + z2 / trials
    let center := (p + z2 / (2 * trials)) / denominator
    let margin :=
      z * Real.sqrt (p * (1 - p) / trials + z2 / (4 * trials * trials)) / denominator
    let lower := max 0 (center - margin)
    let upper := min 1 (center + margin)
    { lower := lower * 100
      upper := upper * 100
      center := center * 100
      confidence := getProportionConfidence trials lower upper center }

/-- CLT-style interval for monetary ratios: mean = total/count,
SE = mean/sqrt(count), interval = mean plus/minus z*SE, floored at 0. -/
def monetaryCI (total count z : ℝ) : ConfidenceInterval :=
  if count = 0 then
    { lower := 0, upper := 0, center := 0, confidence := ConfidenceLevel.none }
  else
    let mean := total / count
    let se := mean / Real.sqrt count
    let lower := max 0 (mean - z * se)
    let upper := mean + z * se
    { lower := lower, upper := upper, center := mean
      confidence := getMonetaryConfidence count }

/-- The derived-metric record produced by `computeMetrics`; the two
video-only rates are nullable and modelled as `Option`. -/
structure ComputedMetrics where
  impressions : ℝ
  clicks : ℝ
  linkClicks : ℝ
  spend : ℝ
  reach : ℝ
  frequency : ℝ
  cpc : ℝ
  ctr : ℝ
  cpm : ℝ
  hookRate : Option ℝ
  holdRate : Option ℝ
  addToCart : ℝ
  purchases : ℝ
  purchaseValue : ℝ
  cvr : ℝ
  atcRate : ℝ
  atcToPurchase : ℝ
  aov : ℝ
  cpa : ℝ
  roas : ℝ
  video3sViews : ℝ
  videoP50Views : ℝ

/-- Dispatch from a metric key to its interval estimator; the `switch` of the source is modelled as an if-chain in declaration order, with the same
default degenerate interval. The `reach || 1` coalescing in the frequency
case substitutes 1 exactly when reach is 0. -/
def getMetricCI (key : String) (metrics : ComputedMetrics) : ConfidenceInterval :=
  if key = "ctr" then wilsonScoreInterval metrics.linkClicks metrics.impressions 1.96
  else if key = "cvr" then wilsonScoreInterval metrics.purchases metrics.linkClicks 1.96
  else if key = "atcRate" then wilsonScoreInterval metrics.addToCart metrics.linkClicks 1.96
  else if key = "atcToPurchase" then wilsonScoreInterval metrics.purchases metrics.addToCart 1.96
  else if key = "hookRate" then wilsonScoreInterval metrics.video3sViews metrics.impressions 1.96
  else if key = "holdRate" then wilsonScoreInterval metrics.videoP50Views metrics.video3sViews 1.96
  else if key = "cpc" then monetaryCI metrics.spend metrics.linkClicks 1.96
  else if key = "cpa" then monetaryCI metrics.spend metrics.purchases 1.96
  else if key = "aov" then monetaryCI metrics.purchaseValue metrics.purchases 1.96
  else if key = "cpm" then monetaryCI (metrics.spend * 1000) metrics.impressions 1.96
  else if key = "frequency" then
    monetaryCI metrics.impressions (if metrics.reach = 0 then 1 else metrics.reach) 1.96
  else { lower := 0, upper := 0, center := 0, confidence := ConfidenceLevel.none }

/-- C4: for 0 ≤ successes ≤ trials, the Wilson score interval satisfies
0 ≤ lower ≤ center ≤ upper ≤ 100, and at trials = 0 it is exactly the
degenerate (0, 0, 0, "none") interval. -/
theorem wilson_interval_ordered (successes trials : ℝ)
    (h0 : 0 ≤ successes) (h1 : successes ≤ trials) :
    (0 ≤ (wilsonScoreInterval successes trials 1.96).lower ∧
      (wilsonScoreInterval successes trials 1.96).lower ≤
        (wilsonScoreInterval successes trials 1.96).center ∧
      (wilsonScoreInterval successes trials 1.96).center ≤
        (wilsonScoreInterval successes trials 1.96).upper ∧
      (wilsonScoreInterval successes trials 1.96).upper ≤ 100) ∧
    wilsonScoreInterval successes 0 1.96 =
      { lower := 0, upper := 0, center := 0, confidence := ConfidenceLevel.none } := by
  constructor
  · by_cases ht : trials = 0
    · subst ht
      simp [wilsonScoreInterval]
    · have htpos : 0 < trials := lt_of_le_of_ne (le_trans h0 h1) (Ne.symm ht)
      set p := successes / trials with hp
      set z2 : ℝ := 1.96 * 1.96 with hz2
      set denominator := 1 + z2 / trials with hden
      set C := (p + z2 / (2 * trials)) / denominator with hC
      set M := 1.96 * Real.sqrt (p * (1 - p) / trials + z2 / (4 * trials * trials)) /
        denominator with hM
      have hw : wilsonScoreInterval successes trials 1.96 =
          { lower := max 0 (C - M) * 100
            upper := min 1 (C + M) * 100
            center := C * 100
            confidence := getProportionConfidence trials (max 0 (C - M)) (min 1 (C + M)) C } := by
        rw [wilsonScoreInterval, if_neg ht]
      have hp0 : 0 ≤ p := div_nonneg h0 (le_of_lt htpos)
      have hp1 : p ≤ 1 := (div_le_one htpos).mpr h1
      have hdenpos : 0 < denominator := by
        rw [hden]
        have : 0 ≤ z2 / trials := by positivity
        linarith
      have hC0 : 0 ≤ C := by
        rw [hC]
        apply div_nonneg _ (le_of_lt hdenpos)
        have : 0 ≤ z2 / (2 * trials) := by positivity
        linarith
      have hhalf : z2 / (2 * trials) ≤ z2 / trials := by
        have hrw : z2 / (2 * trials) = z2 / trials / 2 := by ring
        rw [hrw]
        have : 0 ≤ z2 / trials := by positivity
        linarith
      have hC1 : C ≤ 1 := by
        rw [hC]
        rw [div_le_one hdenpos, hden]
        linarith
      have hM0 : 0 ≤ M := by
        rw [hM]
        positivity
      rw [hw]
      dsimp only
      refine ⟨?_, ?_, ?_, ?_⟩
      · have : (0:ℝ) ≤ max 0 (C - M) := le_max_left 0 _
        nlinarith
      · have : max 0 (C - M) ≤ C := max_le hC0 (by linarith)
        nlinarith
      · have : C ≤ min 1 (C + M) := le_min hC1 (by linarith)
        nlinarith
      · have : min 1 (C + M) ≤ 1 := min_le_left 1 _
        nlinarith
  · simp [wilsonScoreInterval]

/-- Witness for C4 at successes = 10, trials = 40. -/
theorem wilson_interval_ordered_witness :
    (0:ℝ) ≤ 10 ∧ (10:ℝ) ≤ 40 ∧
    ((0 ≤ (wilsonScoreInterval 10 40 1.96).lower ∧
      (wilsonScoreInterval 10 40 1.96).lower ≤ (wilsonScoreInterval 10 40 1.96).center ∧
      (wilsonScoreInterval 10 40 1.96).center ≤ (wilsonScoreInterval 10 40 1.96).upper ∧
      (wilsonScoreInterval 10 40 1.96).upper ≤ 100) ∧
    wilsonScoreInterval 10 0 1.96 =
      { lower := 0, upper := 0, center := 0, confidence := ConfidenceLevel.none }) :=
  ⟨by norm_num, by norm_num, wilson_interval_ordered 10 40 (by norm_num) (by norm_num)⟩

/-! ## Metric deriver (`meta-fields` and `metrics` modules) -/

/-- One entry of the `actions` / `action_values` collections of the platform;
`value` carries the already-parsed number of the numeric string in the source. -/
structure MetaAction where
  action_type : String
  value : ℝ

/-- Find the first action of the given type and return its value, 0 when the
collection is absent or no entry matches. -/
def extractAction (actions : Option (List MetaAction)) (actionType : String) : ℝ :=
  match actions with
  | Option.none => 0
  | Option.some acts =>
    match acts.find? (fun a => a.action_type == actionType) with
    | Option.some a => a.value
    | Option.none => 0

/-- The well-known action-type names, custom conversion ids included. -/
def ActionTypes.linkClick : String := "link_click"

/-- Custom purchase conversion id. -/
def ActionTypes.purchase : String := "offsite_conversion.custom.866343756407498"

/-- Custom add-to-cart conversion id. -/
def ActionTypes.addToCart : String := "offsite_conversion.custom.882491937726061"

/-- Standard pixel purchase event. -/
def ActionTypes.pixelPurchase : String := "offsite_conversion.fb_pixel_purchase"

/-- Standard pixel add-to-cart event. -/
def ActionTypes.pixelAddToCart : String := "offsite_conversion.fb_pixel_add_to_cart"

/-- Three-second video view event. -/
def ActionTypes.video3sView : String := "video_view"

/-- Two-step count extraction: the primary (custom-conversion) event wins when
its count is positive, otherwise the value of the fallback (pixel) event is used. -/
def extractWithFallback (actions : Option (List MetaAction))
    (primary fallback : String) : ℝ :=
  let val := extractAction actions primary
  if val > 0 then val else extractAction actions fallback

/-- Revenue extraction from `action_values`: first matching entry among
custom conversion, standard pixel, then `omni_purchase`; 0 if none match. -/
def extractPurchaseRevenue (actionValues : Option (List MetaAction)) : ℝ :=
  match actionValues with
  | Option.none => 0
  | Option.some avs =>
    match avs.find? (fun a => a.action_type == ActionTypes.purchase) with
    | Option.some custom => custom.value
    | Option.none =>
      match avs.find? (fun a => a.action_type == ActionTypes.pixelPurchase) with
      | Option.some pixel => pixel.value
      | Option.none =>
        match avs.find? (fun a => a.action_type == "omni_purchase") with
        | Option.some omni => omni.value
        | Option.none => 0

/-- Extract the p50 video milestone from its dedicated collection. -/
def extractVideoMetric (actions : Option (List MetaAction)) : ℝ :=
  match actions with
  | Option.none => 0
  | Option.some acts =>
    match acts.find? (fun a => a.action_type == "video_view") with
    | Option.some a => a.value
    | Option.none => 0

/-- One raw counter snapshot as consumed by `computeMetrics`; numeric fields
carry the already-parsed numbers (the `toNum` string coercion of the source is the
modelling boundary). -/
structure RawSnapshot where
  impressions : ℝ
  clicks : ℝ
  spend : ℝ
  reach : ℝ
  frequency : ℝ
  actions : Option (List MetaAction)
  action_values : Option (List MetaAction)
  video_p50_watched_actions : Option (List MetaAction)

/-- The metric deriver: one `ComputedMetrics` per raw snapshot, with the
zero-denominator guards of the source and nullable video rates. -/
def computeMetrics (raw : RawSnapshot) : ComputedMetrics :=
  let impressions := raw.impressions
  let spend := raw.spend
  let linkClicks := extractAction raw.actions ActionTypes.linkClick
  let purchases :=
    extractWithFallback raw.actions ActionTypes.purchase ActionTypes.pixelPurchase
  let addToCart :=
    extractWithFallback raw.actions ActionTypes.addToCart ActionTypes.pixelAddToCart
  let purchaseValue := extractPurchaseRevenue raw.action_values
  let video3sViews := extractAction raw.actions ActionTypes.video3sView
  let videoP50 := extractVideoMetric raw.video_p50_watched_actions
  { impressions := impressions
    clicks := raw.clicks
    linkClicks := linkClicks
    spend := spend
    reach := raw.reach
    frequency := raw.frequency
    cpc := if linkClicks > 0 then spend / linkClicks else 0
    ctr := if impressions > 0 then linkClicks / impressions * 100 else 0
    cpm := if impressions > 0 then spend / impressions * 1000 else 0
    hookRate :=
      if video3sViews > 0 ∧ impressions > 0 then
        Option.some (video3sViews / impressions * 100)
      else Option.none
    holdRate :=
      if videoP50 > 0 ∧ video3sViews > 0 then
        Option.some (videoP50 / video3sViews * 100)
      else Option.none
    addToCart := addToCart
    purchases := purchases
    purchaseValue := purchaseValue
    cvr := if linkClicks > 0 then purchases / linkClicks * 100 else 0
    atcRate := if linkClicks > 0 then addToCart / linkClicks * 100 else 0
    atcToPurchase := if addToCart > 0 then purchases / addToCart * 100 else 0
    aov := if purchases > 0 then purchaseValue / purchases else 0
    cpa := if purchases > 0 then spend / purchases else 0
    roas := if spend > 0 then purchaseValue / spend else 0
    video3sViews := video3sViews
    videoP50Views := videoP50 }

/-- Modelled from the spec: the first-positive fallback chain the spec
describes ("try each in order and use the first with a positive count"),
used to compare the claimed extraction behaviour against the code. -/
def firstPositiveChain (actions : Option (List MetaAction)) : List String → ℝ
  | [] => 0
  | k :: ks =>
    let v := extractAction actions k
    if v > 0 then v else firstPositiveChain actions ks

/-- First-present chain over `action_values`: the value of the first entry
whose type matches a key in the list, even if that value is 0. -/
def firstMatchValue (avs : List MetaAction) : List String → ℝ
  | [] => 0
  | k :: ks =>
    match avs.find? (fun a => a.action_type == k) with
    | Option.some a => a.value
    | Option.none => firstMatchValue avs ks

/-- Snapshot whose only purchase signal is a positive `omni_purchase` count,
and whose `action_values` carry a zero-valued custom entry before a positive
pixel entry. -/
def rawOmniOnly : RawSnapshot :=
  { impressions := 1000
    clicks := 50
    spend := 100
    reach := 800
    frequency := 1.25
    actions := Option.some [{ action_type := "omni_purchase", value := 7 }]
    action_values := Option.some
      [{ action_type := ActionTypes.purchase, value := 0 },
       { action_type := ActionTypes.pixelPurchase, value := 50 }]
    video_p50_watched_actions := Option.none }

/-- C2 counterexample: the claimed three-step first-positive chain yields
purchases = 7 and revenue = 50 on `rawOmniOnly`, but `computeMetrics`
returns 0 for both — counts never fall back to the omni event, and revenue
takes the first matching entry even when its value is 0. -/
theorem extraction_chain_counterexample :
    (computeMetrics rawOmniOnly).purchases = 0 ∧
    firstPositiveChain rawOmniOnly.actions
      [ActionTypes.purchase, ActionTypes.pixelPurchase, "omni_purchase"] = 7 ∧
    (computeMetrics rawOmniOnly).purchaseValue = 0 ∧
    firstPositiveChain rawOmniOnly.action_values
      [ActionTypes.purchase, ActionTypes.pixelPurchase, "omni_purchase"] = 50 := by
  have hc : extractAction rawOmniOnly.actions ActionTypes.purchase = 0 := by
    simp [extractAction, rawOmniOnly, ActionTypes.purchase, List.find?]
  have hpx : extractAction rawOmniOnly.actions ActionTypes.pixelPurchase = 0 := by
    simp [extractAction, rawOmniOnly, ActionTypes.pixelPurchase, List.find?]
  have homni : extractAction rawOmniOnly.actions "omni_purchase" = 7 := by
    simp [extractAction, rawOmniOnly, List.find?]
  have hvc : extractAction rawOmniOnly.action_values ActionTypes.purchase = 0 := by
    simp [extractAction, rawOmniOnly, ActionTypes.purchase, List.find?]
  have hvpx : extractAction rawOmniOnly.action_values ActionTypes.pixelPurchase = 50 := by
    simp [extractAction, rawOmniOnly, ActionTypes.purchase, ActionTypes.pixelPurchase,
      List.find?]
  refine ⟨?_, ?_, ?_, ?_⟩
  · show extractWithFallback rawOmniOnly.actions
      ActionTypes.purchase ActionTypes.pixelPurchase = 0
    simp only [extractWithFallback, hc, hpx]
    norm_num
  · simp only [firstPositiveChain, hc, hpx, homni]
    norm_num
  · show extractPurchaseRevenue rawOmniOnly.action_values = 0
    simp [extractPurchaseRevenue, rawOmniOnly, ActionTypes.purchase, List.find?]
  · simp only [firstPositiveChain, hvc, hvpx]
    norm_num

/-- C2 amended: purchases and add-to-cart use a two-step fallback (custom
conversion, then standard pixel — no omni step), taking the custom count only
when it is positive and the pixel value otherwise; purchase revenue tries
custom, pixel, then omni over `action_values` but uses the first entry
present, even if its value is not positive. -/
theorem extraction_fallback_amended (raw : RawSnapshot) :
    (computeMetrics raw).purchases =
      (let c := extractAction raw.actions ActionTypes.purchase
       if c > 0 then c else extractAction raw.actions ActionTypes.pixelPurchase) ∧
    (computeMetrics raw).addToCart =
      (let c := extractAction raw.actions ActionTypes.addToCart
       if c > 0 then c else extractAction raw.actions ActionTypes.pixelAddToCart) ∧
    (computeMetrics raw).purchaseValue =
      (match raw.action_values with
       | Option.none => 0
       | Option.some avs =>
         firstMatchValue avs
           [ActionTypes.purchase, ActionTypes.pixelPurchase, "omni_purchase"]) := by
  refine ⟨rfl, rfl, ?_⟩
  show extractPurchaseRevenue raw.action_values = _
  cases havs : raw.action_values with
  | none => simp [extractPurchaseRevenue]
  | some avs =>
    simp only [extractPurchaseRevenue, firstMatchValue]

/-! ## Benchmark table (`benchmarks` module) -/

/-- Comparison kind of a benchmark. -/
inductive Comparison
  | lessThan
  | greaterThan
  | between
deriving DecidableEq

/-- Benchmark target: a scalar or a [low, high] pair. -/
inductive BenchTarget
  | num (t : ℝ)
  | range (low high : ℝ)

/-- Scalar view of a target, used by the less-than / greater-than branches;
the static table only ever pairs those comparisons with scalar targets. -/
def BenchTarget.asNum : BenchTarget → ℝ
  | BenchTarget.num t => t
  | BenchTarget.range low _ => low

/-- Pair view of a target, used by the between branch; the static table only
ever pairs that comparison with range targets. -/
def BenchTarget.asRange : BenchTarget → ℝ × ℝ
  | BenchTarget.num t => (t, t)
  | BenchTarget.range low high => (low, high)

/-- Static benchmark configuration; the optional TS flags are modelled with
defaults false / `Option.none` matching absent fields. -/
structure Benchmark where
  key : String
  label : String
  target : BenchTarget
  comparison : Comparison
  format : String
  videoOnly : Bool := false
  dynamic : Bool := false
  lowerIsBetter : Option Bool := Option.none

/-- CPC soft benchmark. -/
def cpcBenchmark : Benchmark :=
  { key := "cpc", label := "CPC (Link Click)", target := BenchTarget.num 1.5
    comparison := Comparison.lessThan, format := "currency" }

/-- CTR soft benchmark. -/
def ctrBenchmark : Benchmark :=
  { key := "ctr", label := "CTR (Link Click)", target := BenchTarget.num 3
    comparison := Comparison.greaterThan, format := "percent" }

/-- CPM soft benchmark. -/
def cpmBenchmark : Benchmark :=
  { key := "cpm", label := "CPM", target := BenchTarget.range 40 50
    comparison := Comparison.between, format := "currency" }

/-- Hook-rate soft benchmark (video only). -/
def hookRateBenchmark : Benchmark :=
  { key := "hookRate", label := "Hook Rate (3s View %)", target := BenchTarget.num 50
    comparison := Comparison.greaterThan, format := "percent", videoOnly := true }

/-- Hold-rate soft benchmark (video only). -/
def holdRateBenchmark : Benchmark :=
  { key := "holdRate", label := "Hold Rate (p50 %)", target := BenchTarget.num 25
    comparison := Comparison.greaterThan, format := "percent", videoOnly := true }

/-- Frequency soft benchmark. -/
def frequencyBenchmark : Benchmark :=
  { key := "frequency", label := "Frequency", target := BenchTarget.num 1.5
    comparison := Comparison.lessThan, format := "number" }

/-- CVR hard benchmark. -/
def cvrBenchmark : Benchmark :=
  { key := "cvr", label := "CVR", target := BenchTarget.range 3 5
    comparison := Comparison.between, format := "percent" }

/-- ATC-rate hard benchmark. -/
def atcRateBenchmark : Benchmark :=
  { key := "atcRate", label := "ATC Rate", target := BenchTarget.num 10
    comparison := Comparison.greaterThan, format := "percent" }

/-- ATC-to-purchase hard benchmark. -/
def atcToPurchaseBenchmark : Benchmark :=
  { key := "atcToPurchase", label := "ATC → Purchase", target := BenchTarget.num 30
    comparison := Comparison.greaterThan, format := "percent" }

/-- CPA hard benchmark with dynamic target. -/
def cpaBenchmark : Benchmark :=
  { key := "cpa", label := "CPA", target := BenchTarget.num 0
    comparison := Comparison.lessThan, format := "currency", dynamic := true }

/-- Soft (attention/delivery) benchmarks in declaration order. -/
def softBenchmarks : List Benchmark :=
  [cpcBenchmark, ctrBenchmark, cpmBenchmark, hookRateBenchmark,
   holdRateBenchmark, frequencyBenchmark]

/-- Hard (funnel/economics) benchmarks in declaration order. -/
def hardBenchmarks : List Benchmark :=
  [cvrBenchmark, atcRateBenchmark, atcToPurchaseBenchmark, cpaBenchmark]

/-- All benchmarks: soft first, then hard. -/
def allBenchmarks : List Benchmark := softBenchmarks ++ hardBenchmarks

/-- Dynamic CPA target = 50% of (2x front-end price). -/
def getCpaTarget (frontEndPrice : ℝ) : ℝ := frontEndPrice * 2 * 0.5

/-! ## Benchmark evaluator and recommendation engine
    (`recommendations` module) -/

/-- The three pass/fail judgements returned by `isBenchmarkPassing`. -/
structure PassStatus where
  passing : Prop
  confidentlyPassing : Prop
  confidentlyFailing : Prop

/-- Comparison-kind-specific pass logic over the point value and the
confidence interval, with dynamic CPA target substitution. -/
def isBenchmarkPassing (benchmark : Benchmark) (ci : ConfidenceInterval)
    (value : ℝ) (frontEndPrice : ℝ) : PassStatus :=
  let target :=
    if benchmark.dynamic && (benchmark.key == "cpa") then
      BenchTarget.num (getCpaTarget frontEndPrice)
    else benchmark.target
  match benchmark.comparison with
  | Comparison.lessThan =>
    let t := target.asNum
    { passing := value < t, confidentlyPassing := ci.upper < t
      confidentlyFailing := ci.lower > t }
  | Comparison.greaterThan =>
    let t := target.asNum
    { passing := value > t, confidentlyPassing := ci.lower > t
      confidentlyFailing := ci.upper < t }
  | Comparison.between =>
    let low := target.asRange.1
    let high := target.asRange.2
    match benchmark.lowerIsBetter with
    | Option.some true =>
      { passing := value ≤ high, confidentlyPassing := ci.upper ≤ high
        confidentlyFailing := ci.lower > high }
    | Option.some false =>
      { passing := value ≥ low, confidentlyPassing := ci.lower ≥ low
        confidentlyFailing := ci.upper < low }
    | Option.none =>
      { passing := value ≥ low ∧ value ≤ high
        confidentlyPassing := ci.lower ≥ low ∧ ci.upper ≤ high
        confidentlyFailing := ci.upper < low ∨ ci.lower > high }

/-- Dynamic metric lookup by benchmark key, modelling the dynamic record
indexing with null-coalescing to 0 (nullable video rates and unknown keys
coerce to 0). -/
def metricValue (metrics : ComputedMetrics) (key : String) : ℝ :=
  if key = "impressions" then metrics.impressions
  else if key = "clicks" then metrics.clicks
  else if key = "linkClicks" then metrics.linkClicks
  else if key = "spend" then metrics.spend
  else if key = "reach" then metrics.reach
  else if key = "frequency" then metrics.frequency
  else if key = "cpc" then metrics.cpc
  else if key = "ctr" then metrics.ctr
  else if key = "cpm" then metrics.cpm
  else if key = "hookRate" then metrics.hookRate.getD 0
  else if key = "holdRate" then metrics.holdRate.getD 0
  else if key = "addToCart" then metrics.addToCart
  else if key = "purchases" then metrics.purchases
  else if key = "purchaseValue" then metrics.purchaseValue
  else if key = "cvr" then metrics.cvr
  else if key = "atcRate" then metrics.atcRate
  else if key = "atcToPurchase" then metrics.atcToPurchase
  else if key = "aov" then metrics.aov
  else if key = "cpa" then metrics.cpa
  else if key = "roas" then metrics.roas
  else if key = "video3sViews" then metrics.video3sViews
  else if key = "videoP50Views" then metrics.videoP50Views
  else 0

/-- Join of a benchmark with its evaluated value, interval and judgements. -/
structure KpiResult where
  benchmark : Benchmark
  value : ℝ
  ci : ConfidenceInterval
  passing : Prop
  confidentlyPassing : Prop
  confidentlyFailing : Prop

/-- Evaluate every applicable benchmark in declaration order, skipping
video-only benchmarks when hookRate is null. -/
def evaluateKpis (metrics : ComputedMetrics) (frontEndPrice : ℝ) : List KpiResult :=
  (allBenchmarks.filter
    (fun b => !(b.videoOnly && metrics.hookRate.isNone))).map
    (fun benchmark =>
      let value := metricValue metrics benchmark.key
      let ci := getMetricCI benchmark.key metrics
      let status := isBenchmarkPassing benchmark ci value frontEndPrice
      { benchmark := benchmark, value := value, ci := ci
        passing := status.passing
        confidentlyPassing := status.confidentlyPassing
        confidentlyFailing := status.confidentlyFailing })

/-- The four terminal recommendation actions. -/
inductive RecAction
  | Kill
  | Watch
  | Scale
  | Starving
deriving DecidableEq

/-- Human-readable reasoning entries, modelled as tagged values carrying the
numbers the source interpolates into its strings. -/
inductive Reason
  | starvingShare (share spend campaignSpend : ℝ)
  | starvingAbsolute (spend impressions : ℝ)
  | killZeroPurchases3x (spend target3 : ℝ)
  | killZeroPurchases2x (spend linkClicks : ℝ)
  | killLowVolumeBadCpa (purchases cpa : ℝ)
  | killUnprofitable (purchases roas : ℝ)
  | scaleEconomics (purchases roas cpa : ℝ)
  | softKpiNote (labels : List String)
  | watchAccumulating (purchases roas cpa : ℝ)
  | watchNeedsMoreData (spend linkClicks : ℝ)
  | softKpiConcern (labels : List String)

/-- One recommendation: an action plus ordered reasoning. -/
structure Recommendation where
  action : RecAction
  reasoning : List Reason

/-- Share of parent campaign spend, defined only when a positive campaign
spend is supplied (0 is falsy in the truthiness test of the source). -/
def spendShare (metrics : ComputedMetrics) (campaignSpend : Option ℝ) : Option ℝ :=
  match campaignSpend with
  | Option.some cs => if cs > 0 then Option.some (metrics.spend / cs) else Option.none
  | Option.none => Option.none

/-- Starving test: relative share below 2% when parent spend is available,
otherwise the absolute floors on spend and impressions. -/
def isStarving (metrics : ComputedMetrics) (campaignSpend : Option ℝ) : Prop :=
  match spendShare metrics campaignSpend with
  | Option.some share => share < 0.02
  | Option.none => metrics.spend < 3 ∨ metrics.impressions < 100

/-- Soft KPIs that are confidently failing, used for advisory reasoning. -/
def softFailingKpis (kpis : List KpiResult) : List KpiResult :=
  (kpis.filter
    (fun k => softBenchmarks.any (fun sb => sb.key == k.benchmark.key))).filter
    (fun k => decide k.confidentlyFailing)

/-- The recommendation engine: ordered decision list (Starving, the three
Kill tiers, Scale, Watch), first matching rule wins. The early
returns of the source inside the zero-purchase block are linearized into the equivalent
guard conjunctions. -/
def getRecommendation (metrics : ComputedMetrics) (frontEndPrice : ℝ)
    (campaignSpend : Option ℝ) : Recommendation :=
  let cpaTarget := getCpaTarget frontEndPrice
  if isStarving metrics campaignSpend then
    { action := RecAction.Starving
      reasoning :=
        [match spendShare metrics campaignSpend with
         | Option.some share =>
           Reason.starvingShare share metrics.spend (campaignSpend.getD 0)
         | Option.none => Reason.starvingAbsolute metrics.spend metrics.impressions] }
  else
    let kpis := evaluateKpis metrics frontEndPrice
    let hasPurchases := metrics.purchases > 0
    let softFailing := softFailingKpis kpis
    let softLabels := softFailing.map (fun k => k.benchmark.label)
    if ¬ hasPurchases ∧ metrics.spend > cpaTarget * 3 then
      { action := RecAction.Kill
        reasoning := [Reason.killZeroPurchases3x metrics.spend (cpaTarget * 3)] }
    else if ¬ hasPurchases ∧ metrics.spend > cpaTarget * 2 ∧ metrics.linkClicks ≥ 30 then
      { action := RecAction.Kill
        reasoning := [Reason.killZeroPurchases2x metrics.spend metrics.linkClicks] }
    else if hasPurchases ∧ metrics.purchases < 5 ∧ metrics.cpa > cpaTarget * 2 then
      { action := RecAction.Kill
        reasoning := [Reason.killLowVolumeBadCpa metrics.purchases metrics.cpa] }
    else if hasPurchases ∧ metrics.purchases ≥ 5 ∧ metrics.roas < 0.8 then
      { action := RecAction.Kill
        reasoning := [Reason.killUnprofitable metrics.purchases metrics.roas] }
    else if hasPurchases ∧ metrics.roas ≥ 1.0 ∧
        metrics.purchases ≥ 3 ∧ metrics.cpa ≤ cpaTarget * 1.5 then
      { action := RecAction.Scale
        reasoning :=
          Reason.scaleEconomics metrics.purchases metrics.roas metrics.cpa ::
            (if softFailing.isEmpty then [] else [Reason.softKpiNote softLabels]) }
    else
      { action := RecAction.Watch
        reasoning :=
          (if hasPurchases then
            Reason.watchAccumulating metrics.purchases metrics.roas metrics.cpa
           else Reason.watchNeedsMoreData metrics.spend metrics.linkClicks) ::
            (if softFailing.isEmpty then [] else [Reason.softKpiConcern softLabels]) }

/-! ## Concrete inputs used by counterexamples and witnesses -/

/-- All-zero derived metrics (no delivery at all). -/
def zeroMetrics : ComputedMetrics :=
  { impressions := 0, clicks := 0, linkClicks := 0, spend := 0, reach := 0
    frequency := 0, cpc := 0, ctr := 0, cpm := 0
    hookRate := Option.none, holdRate := Option.none
    addToCart := 0, purchases := 0, purchaseValue := 0, cvr := 0, atcRate := 0
    atcToPurchase := 0, aov := 0, cpa := 0, roas := 0
    video3sViews := 0, videoP50Views := 0 }

/-- Scenario A metrics: $5 spend, 80 impressions. -/
def mScenarioA : ComputedMetrics :=
  { zeroMetrics with spend := 5, impressions := 80 }

/-- Scenario B metrics: $210 spend, zero purchases, 100 impressions and no
link clicks (delivery above the absolute starving floors). -/
def mScenarioB : ComputedMetrics :=
  { zeroMetrics with
    spend := 210
    impressions := 100
    reach := 100
    frequency := 1
    cpm := 2100 }

/-- Same as Scenario B but with spend strictly above 3x the CPA target. -/
def mOver3x : ComputedMetrics := { mScenarioB with spend := 211 }

/-- Scenario E metrics: 5 purchases at 1.8x ROAS and $60 CPA. -/
def mScenarioE : ComputedMetrics :=
  { zeroMetrics with
    impressions := 10000
    linkClicks := 200
    spend := 300
    reach := 8000
    frequency := 1.25
    purchases := 5
    purchaseValue := 540
    roas := 1.8
    cpa := 60
    aov := 108 }

/-- Metrics with zero reach but positive impressions. -/
def freqMetrics : ComputedMetrics :=
  { zeroMetrics with impressions := 1000 }

/-- Video metrics whose hookRate is defined but whose holdRate is null. -/
def videoMetrics : ComputedMetrics :=
  { zeroMetrics with
    impressions := 1000
    video3sViews := 600
    hookRate := Option.some 60 }

/-! ## Claims about the recommendation engine -/

/-- C3: getRecommendation is total — every input yields exactly one of the
four actions, and the Starving rule decides first. -/
theorem recommendation_total (m : ComputedMetrics) (fp : ℝ) (cs : Option ℝ) :
    ((getRecommendation m fp cs).action = RecAction.Starving ∨
     (getRecommendation m fp cs).action = RecAction.Kill ∨
     (getRecommendation m fp cs).action = RecAction.Scale ∨
     (getRecommendation m fp cs).action = RecAction.Watch) ∧
    (isStarving m cs → (getRecommendation m fp cs).action = RecAction.Starving) := by
  constructor
  · cases h : (getRecommendation m fp cs).action <;> simp
  · intro h
    simp only [getRecommendation]
    rw [if_pos h]

/-- Witness for C3 at Scenario A (spend 5, impressions 80, parent spend
2000, share 0.25% below the 2% floor). -/
theorem recommendation_total_witness :
    isStarving mScenarioA (Option.some 2000) ∧
    (getRecommendation mScenarioA 70 (Option.some 2000)).action = RecAction.Starving := by
  have h : isStarving mScenarioA (Option.some 2000) := by
    norm_num [isStarving, spendShare, mScenarioA, zeroMetrics]
  exact ⟨h, (recommendation_total mScenarioA 70 (Option.some 2000)).2 h⟩

/-- C1 counterexample: at spend exactly 3x the CPA target (210 = 3 x 70)
with zero purchases, no link clicks and delivery above the starving floors,
the engine returns Watch, not Kill — the 3x test in the code is strict. -/
theorem kill_at_exactly_3x_counterexample :
    mScenarioB.spend = 3 * getCpaTarget 70 ∧
    mScenarioB.purchases = 0 ∧
    ¬ isStarving mScenarioB Option.none ∧
    (getRecommendation mScenarioB 70 Option.none).action = RecAction.Watch ∧
    (getRecommendation mScenarioB 70 Option.none).action ≠ RecAction.Kill := by
  have hns : ¬ isStarving mScenarioB Option.none := by
    norm_num [isStarving, spendShare, mScenarioB, zeroMetrics]
  have h1 : ¬(¬ mScenarioB.purchases > 0 ∧ mScenarioB.spend > getCpaTarget 70 * 3) := by
    norm_num [mScenarioB, zeroMetrics, getCpaTarget]
  have h2 : ¬(¬ mScenarioB.purchases > 0 ∧ mScenarioB.spend > getCpaTarget 70 * 2 ∧
      mScenarioB.linkClicks ≥ 30) := by
    norm_num [mScenarioB, zeroMetrics, getCpaTarget]
  have h3 : ¬(mScenarioB.purchases > 0 ∧ mScenarioB.purchases < 5 ∧
      mScenarioB.cpa > getCpaTarget 70 * 2) := by
    norm_num [mScenarioB, zeroMetrics]
  have h4 : ¬(mScenarioB.purchases > 0 ∧ mScenarioB.purchases ≥ 5 ∧
      mScenarioB.roas < 0.8) := by
    norm_num [mScenarioB, zeroMetrics]
  have h5 : ¬(mScenarioB.purchases > 0 ∧ mScenarioB.roas ≥ 1.0 ∧
      mScenarioB.purchases ≥ 3 ∧ mScenarioB.cpa ≤ getCpaTarget 70 * 1.5) := by
    norm_num [mScenarioB, zeroMetrics]
  have hrec : (getRecommendation mScenarioB 70 Option.none).action = RecAction.Watch := by
    simp only [getRecommendation]
    rw [if_neg hns, if_neg h1, if_neg h2, if_neg h3, if_neg h4, if_neg h5]
  refine ⟨by norm_num [mScenarioB, zeroMetrics, getCpaTarget], rfl, hns, hrec, ?_⟩
  rw [hrec]
  intro h
  exact RecAction.noConfusion h

/-- C1 amended: with zero purchases, not Starving, and spend strictly
greater than 3x the dynamic CPA target, getRecommendation returns Kill
regardless of link-click volume; at exactly 3x (spend = 210, target = 70)
with low traffic the code returns Watch instead. -/
theorem kill_zero_purchases_above_3x (m : ComputedMetrics) (fp : ℝ) (cs : Option ℝ)
    (h0 : ¬ isStarving m cs) (h1 : m.purchases = 0)
    (h2 : m.spend > getCpaTarget fp * 3) :
    (getRecommendation m fp cs).action = RecAction.Kill := by
  have hnp : ¬ m.purchases > 0 := by rw [h1]; exact lt_irrefl 0
  simp only [getRecommendation]
  rw [if_neg h0, if_pos ⟨hnp, h2⟩]

/-- Witness for the amended C1 at spend 211 with target 70. -/
theorem kill_zero_purchases_above_3x_witness :
    ¬ isStarving mOver3x Option.none ∧ mOver3x.purchases = 0 ∧
    mOver3x.spend > getCpaTarget 70 * 3 ∧
    (getRecommendation mOver3x 70 Option.none).action = RecAction.Kill := by
  have hns : ¬ isStarving mOver3x Option.none := by
    norm_num [isStarving, spendShare, mOver3x, mScenarioB, zeroMetrics]
  have h2 : mOver3x.spend > getCpaTarget 70 * 3 := by
    norm_num [mOver3x, mScenarioB, zeroMetrics, getCpaTarget]
  exact ⟨hns, rfl, h2,
    kill_zero_purchases_above_3x mOver3x 70 Option.none hns rfl h2⟩

/-- C6: with at least 3 purchases, ROAS at least 1.0, CPA at most 1.5x the
dynamic target, not Starving and no earlier Kill rule matching, the engine
returns Scale — for every metrics record, so confidently-failing soft KPIs
never change the verdict. -/
theorem scale_rule (m : ComputedMetrics) (fp : ℝ) (cs : Option ℝ)
    (h0 : ¬ isStarving m cs) (h1 : m.purchases ≥ 3) (h2 : m.roas ≥ 1.0)
    (h3 : m.cpa ≤ getCpaTarget fp * 1.5)
    (h4 : ¬ (m.purchases < 5 ∧ m.cpa > getCpaTarget fp * 2)) :
    (getRecommendation m fp cs).action = RecAction.Scale := by
  have hp : m.purchases > 0 := by linarith
  have hc1 : ¬(¬ m.purchases > 0 ∧ m.spend > getCpaTarget fp * 3) := by
    intro h
    exact h.1 hp
  have hc2 : ¬(¬ m.purchases > 0 ∧ m.spend > getCpaTarget fp * 2 ∧
      m.linkClicks ≥ 30) := by
    intro h
    exact h.1 hp
  have hc3 : ¬(m.purchases > 0 ∧ m.purchases < 5 ∧ m.cpa > getCpaTarget fp * 2) := by
    intro h
    exact h4 ⟨h.2.1, h.2.2⟩
  have hc4 : ¬(m.purchases > 0 ∧ m.purchases ≥ 5 ∧ m.roas < 0.8) := by
    intro h
    have := h.2.2
    linarith
  simp only [getRecommendation]
  rw [if_neg h0, if_neg hc1, if_neg hc2, if_neg hc3, if_neg hc4,
    if_pos ⟨hp, h2, h1, h3⟩]

/-- Witness for C6 at Scenario E (5 purchases, 1.8x ROAS, $60 CPA,
target 70, 1.5x = 105). -/
theorem scale_rule_witness :
    ¬ isStarving mScenarioE Option.none ∧ mScenarioE.purchases ≥ 3 ∧
    mScenarioE.roas ≥ 1.0 ∧ mScenarioE.cpa ≤ getCpaTarget 70 * 1.5 ∧
    ¬ (mScenarioE.purchases < 5 ∧ mScenarioE.cpa > getCpaTarget 70 * 2) ∧
    (getRecommendation mScenarioE 70 Option.none).action = RecAction.Scale := by
  have hns : ¬ isStarving mScenarioE Option.none := by
    norm_num [isStarving, spendShare, mScenarioE, zeroMetrics]
  have h1 : mScenarioE.purchases ≥ 3 := by norm_num [mScenarioE, zeroMetrics]
  have h2 : mScenarioE.roas ≥ 1.0 := by norm_num [mScenarioE, zeroMetrics]
  have h3 : mScenarioE.cpa ≤ getCpaTarget 70 * 1.5 := by
    norm_num [mScenarioE, zeroMetrics, getCpaTarget]
  have h4 : ¬ (mScenarioE.purchases < 5 ∧ mScenarioE.cpa > getCpaTarget 70 * 2) := by
    norm_num [mScenarioE, zeroMetrics, getCpaTarget]
  exact ⟨hns, h1, h2, h3, h4, scale_rule mScenarioE 70 Option.none hns h1 h2 h3 h4⟩


/-- C5: when hookRate is null every videoOnly benchmark is omitted and the
KPI list is exactly one result per remaining benchmark, in declaration
order (soft benchmarks first, then hard benchmarks). -/
theorem evaluateKpis_skips_video (m : ComputedMetrics) (fp : ℝ)
    (h : m.hookRate = Option.none) :
    (evaluateKpis m fp).map KpiResult.benchmark =
      [cpcBenchmark, ctrBenchmark, cpmBenchmark, frequencyBenchmark,
       cvrBenchmark, atcRateBenchmark, atcToPurchaseBenchmark, cpaBenchmark] := by
  simp [evaluateKpis, allBenchmarks, softBenchmarks, hardBenchmarks, h,
    cpcBenchmark, ctrBenchmark, cpmBenchmark, hookRateBenchmark,
    holdRateBenchmark, frequencyBenchmark, cvrBenchmark, atcRateBenchmark,
    atcToPurchaseBenchmark, cpaBenchmark, List.filter]

/-- Witness for C5 on the all-zero metrics (hookRate null). -/
theorem evaluateKpis_skips_video_witness :
    zeroMetrics.hookRate = Option.none ∧
    (evaluateKpis zeroMetrics 70).map KpiResult.benchmark =
      [cpcBenchmark, ctrBenchmark, cpmBenchmark, frequencyBenchmark,
       cvrBenchmark, atcRateBenchmark, atcToPurchaseBenchmark, cpaBenchmark] :=
  ⟨rfl, evaluateKpis_skips_video zeroMetrics 70 rfl⟩

/-- C7: for a greater-than benchmark, shifting the value and both interval
bounds up by the same nonnegative amount can only move the judgements from
failing toward passing: passing and confidentlyPassing are monotone
non-decreasing, confidentlyFailing monotone non-increasing. -/
theorem greaterThan_benchmark_monotone (b : Benchmark) (fp v d l u c : ℝ)
    (conf : ConfidenceLevel) (hcomp : b.comparison = Comparison.greaterThan)
    (hd : 0 ≤ d) :
    ((isBenchmarkPassing b
        { lower := l, upper := u, center := c, confidence := conf } v fp).passing →
      (isBenchmarkPassing b
        { lower := l + d, upper := u + d, center := c + d, confidence := conf }
        (v + d) fp).passing) ∧
    ((isBenchmarkPassing b
        { lower := l, upper := u, center := c, confidence := conf } v fp).confidentlyPassing →
      (isBenchmarkPassing b
        { lower := l + d, upper := u + d, center := c + d, confidence := conf }
        (v + d) fp).confidentlyPassing) ∧
    ((isBenchmarkPassing b
        { lower := l + d, upper := u + d, center := c + d, confidence := conf }
        (v + d) fp).confidentlyFailing →
      (isBenchmarkPassing b
        { lower := l, upper := u, center := c, confidence := conf } v fp).confidentlyFailing) := by
  simp only [isBenchmarkPassing, hcomp]
  refine ⟨?_, ?_, ?_⟩ <;> intro h <;> linarith

/-- Witness for C7 at the CTR benchmark with a shift of 3. -/
theorem greaterThan_benchmark_monotone_witness :
    ctrBenchmark.comparison = Comparison.greaterThan ∧ (0:ℝ) ≤ 3 ∧
    (((isBenchmarkPassing ctrBenchmark
        { lower := 1, upper := 4, center := 2, confidence := ConfidenceLevel.none } 2 70).passing →
      (isBenchmarkPassing ctrBenchmark
        { lower := 1 + 3, upper := 4 + 3, center := 2 + 3, confidence := ConfidenceLevel.none }
        (2 + 3) 70).passing) ∧
    ((isBenchmarkPassing ctrBenchmark
        { lower := 1, upper := 4, center := 2, confidence := ConfidenceLevel.none } 2 70).confidentlyPassing →
      (isBenchmarkPassing ctrBenchmark
        { lower := 1 + 3, upper := 4 + 3, center := 2 + 3, confidence := ConfidenceLevel.none }
        (2 + 3) 70).confidentlyPassing) ∧
    ((isBenchmarkPassing ctrBenchmark
        { lower := 1 + 3, upper := 4 + 3, center := 2 + 3, confidence := ConfidenceLevel.none }
        (2 + 3) 70).confidentlyFailing →
      (isBenchmarkPassing ctrBenchmark
        { lower := 1, upper := 4, center := 2, confidence := ConfidenceLevel.none } 2 70).confidentlyFailing)) :=
  ⟨rfl, by norm_num,
    greaterThan_benchmark_monotone ctrBenchmark 70 2 3 1 4 2 ConfidenceLevel.none rfl
      (by norm_num)⟩

/-- C8: an unknown metric key yields the degenerate zero interval with
confidence "none" (the estimator is total, it never raises). -/
theorem getMetricCI_unknown_key (key : String) (metrics : ComputedMetrics)
    (h : key ∉ (["ctr", "cvr", "atcRate", "atcToPurchase", "hookRate", "holdRate",
      "cpc", "cpa", "aov", "cpm", "frequency"] : List String)) :
    getMetricCI key metrics =
      { lower := 0, upper := 0, center := 0, confidence := ConfidenceLevel.none } := by
  simp only [List.mem_cons, List.not_mem_nil, or_false, not_or] at h
  obtain ⟨h1, h2, h3, h4, h5, h6, h7, h8, h9, h10, h11⟩ := h
  simp [getMetricCI, h1, h2, h3, h4, h5, h6, h7, h8, h9, h10, h11]

/-- Witness for C8 at the key "bogus". -/
theorem getMetricCI_unknown_key_witness :
    "bogus" ∉ (["ctr", "cvr", "atcRate", "atcToPurchase", "hookRate", "holdRate",
      "cpc", "cpa", "aov", "cpm", "frequency"] : List String) ∧
    getMetricCI "bogus" zeroMetrics =
      { lower := 0, upper := 0, center := 0, confidence := ConfidenceLevel.none } :=
  ⟨by decide, getMetricCI_unknown_key "bogus" zeroMetrics (by decide)⟩

/-- C9 counterexample: with reach = 0 and impressions = 0 the frequency
estimator does return the degenerate zero interval, so the claim that a
zero-reach record never yields the degenerate interval fails. -/
theorem frequency_ci_degenerate_counterexample :
    zeroMetrics.reach = 0 ∧
    getMetricCI "frequency" zeroMetrics =
      { lower := 0, upper := 0, center := 0, confidence := ConfidenceLevel.none } := by
  refine ⟨rfl, ?_⟩
  norm_num [getMetricCI, monetaryCI, wilsonScoreInterval, getMonetaryConfidence,
    zeroMetrics, Real.sqrt_one]

/-- C9 amended: with reach = 0 the frequency estimator substitutes a count
of 1, so the center equals impressions, the upper bound equals impressions
plus 1.96 times impressions, and the confidence is "none"; the interval is
non-degenerate whenever impressions are positive. -/
theorem frequency_ci_zero_reach (m : ComputedMetrics) (h : m.reach = 0) :
    getMetricCI "frequency" m =
      { lower := max 0 (m.impressions - 1.96 * m.impressions)
        upper := m.impressions + 1.96 * m.impressions
        center := m.impressions
        confidence := ConfidenceLevel.none } ∧
    (0 < m.impressions →
      getMetricCI "frequency" m ≠
        { lower := 0, upper := 0, center := 0, confidence := ConfidenceLevel.none }) := by
  have hkey : getMetricCI "frequency" m = monetaryCI m.impressions 1 1.96 := by
    simp [getMetricCI, h]
  have hm : monetaryCI m.impressions 1 1.96 =
      { lower := max 0 (m.impressions - 1.96 * m.impressions)
        upper := m.impressions + 1.96 * m.impressions
        center := m.impressions
        confidence := ConfidenceLevel.none } := by
    rw [monetaryCI, if_neg (by norm_num : (1:ℝ) ≠ 0)]
    norm_num [Real.sqrt_one, getMonetaryConfidence]
  constructor
  · rw [hkey, hm]
  · intro hpos heq
    rw [hkey, hm] at heq
    have hupper := congrArg ConfidenceInterval.upper heq
    dsimp at hupper
    linarith

/-- Witness for the amended C9 at reach 0 and impressions 1000. -/
theorem frequency_ci_zero_reach_witness :
    freqMetrics.reach = 0 ∧
    (getMetricCI "frequency" freqMetrics =
      { lower := max 0 (freqMetrics.impressions - 1.96 * freqMetrics.impressions)
        upper := freqMetrics.impressions + 1.96 * freqMetrics.impressions
        center := freqMetrics.impressions
        confidence := ConfidenceLevel.none } ∧
    (0 < freqMetrics.impressions →
      getMetricCI "frequency" freqMetrics ≠
        { lower := 0, upper := 0, center := 0, confidence := ConfidenceLevel.none })) :=
  ⟨rfl, frequency_ci_zero_reach freqMetrics rfl⟩

/-- C10: when hookRate is defined but holdRate is null, the holdRate
benchmark is still evaluated with its value coerced to 0, so it fails its
greater-than target and counts as a non-passing KPI. -/
theorem holdRate_null_coerced (m : ComputedMetrics) (fp : ℝ) (hr : ℝ)
    (h1 : m.hookRate = Option.some hr) (h2 : m.holdRate = Option.none) :
    holdRateBenchmark ∈ (evaluateKpis m fp).map KpiResult.benchmark ∧
    ∀ r ∈ evaluateKpis m fp, r.benchmark = holdRateBenchmark →
      r.value = 0 ∧ ¬ r.passing := by
  have hfilter : allBenchmarks.filter
      (fun b => !(b.videoOnly && m.hookRate.isNone)) = allBenchmarks := by
    simp [h1]
  have heval : evaluateKpis m fp = allBenchmarks.map
      (fun benchmark =>
        let value := metricValue m benchmark.key
        let ci := getMetricCI benchmark.key m
        let status := isBenchmarkPassing benchmark ci value fp
        { benchmark := benchmark, value := value, ci := ci
          passing := status.passing
          confidentlyPassing := status.confidentlyPassing
          confidentlyFailing := status.confidentlyFailing }) := by
    simp only [evaluateKpis]
    rw [hfilter]
  have hv : metricValue m "holdRate" = 0 := by
    simp [metricValue, h2]
  constructor
  · rw [heval, List.map_map]
    have hmem : holdRateBenchmark ∈ allBenchmarks := by
      simp [allBenchmarks, softBenchmarks, hardBenchmarks]
    exact List.mem_map.mpr ⟨holdRateBenchmark, hmem, rfl⟩
  · intro r hrmem heq
    rw [heval] at hrmem
    obtain ⟨b, hb, rfl⟩ := List.mem_map.mp hrmem
    have hbeq : b = holdRateBenchmark := heq
    subst hbeq
    refine ⟨?_, ?_⟩
    · show metricValue m holdRateBenchmark.key = 0
      simpa [holdRateBenchmark] using hv
    · show ¬ (isBenchmarkPassing holdRateBenchmark
        (getMetricCI holdRateBenchmark.key m)
        (metricValue m holdRateBenchmark.key) fp).passing
      have hvk : metricValue m holdRateBenchmark.key = 0 := by
        simpa [holdRateBenchmark] using hv
      rw [hvk]
      norm_num [isBenchmarkPassing, holdRateBenchmark, BenchTarget.asNum]

/-- Witness for C10 on metrics with hookRate 60 and null holdRate. -/
theorem holdRate_null_coerced_witness :
    videoMetrics.hookRate = Option.some 60 ∧
    videoMetrics.holdRate = Option.none ∧
    (holdRateBenchmark ∈ (evaluateKpis videoMetrics 70).map KpiResult.benchmark ∧
    ∀ r ∈ evaluateKpis videoMetrics 70, r.benchmark = holdRateBenchmark →
      r.value = 0 ∧ ¬ r.passing) :=
  ⟨rfl, rfl, holdRate_null_coerced videoMetrics 70 60 rfl rfl⟩

end
